import Mathlib

/-!
Shallow embedding of `src/backend/services/gemini_service.py` (class
`GeminiService`).  The remote Gemini calls are modelled as oracle outcomes
passed in as explicit arguments: an `Except String (Option String)` value,
where `.error e` means the remote call raised exception `e`, `.ok none`
means the call returned but reading `.text` raised (a blocked / empty
reply), and `.ok (some t)` means `.text` returned the string `t`.  The
mutable `self.conversation_history` becomes explicit state passing of a
`List Message`.
-/

/-- Python `str.isspace` on a single character, restricted to the ASCII
whitespace characters Python strips by default. -/
def pyIsSpace (c : Char) : Bool :=
  c = ' ' || c = '\t' || c = '\n' || c = '\r' || c = '\x0b' || c = '\x0c'

/-- Python `str.strip()` on the character list: drop whitespace from both
ends (left via `dropWhile`, right via `rdropWhile`). -/
def pyStripList (l : List Char) : List Char :=
  (l.dropWhile pyIsSpace).rdropWhile pyIsSpace

/-- Python `str.strip()`. -/
def pyStrip (s : String) : String :=
  ⟨pyStripList s.data⟩

/-- Python `needle in haystack` (substring containment). -/
def pyIn (needle haystack : String) : Bool :=
  decide (needle.data <:+: haystack.data)

/-- Left-to-right non-overlapping replacement scan, as Python
`str.replace` performs it: at each position, if the pattern starts here,
emit the replacement and resume after the matched occurrence, otherwise
keep one character and move on.  `fuel` (instantiated with the length of
the scanned list, which suffices for every non-empty pattern) makes the
recursion structural. -/
def replaceGo (pat repl : List Char) : Nat → List Char → List Char
  | 0, l => l
  | _ + 1, [] => []
  | fuel + 1, c :: cs =>
      if pat <+: (c :: cs) then
        repl ++ replaceGo pat repl fuel ((c :: cs).drop pat.length)
      else
        c :: replaceGo pat repl fuel cs

/-- Python `s.replace(pat, repl)` (all non-overlapping occurrences,
scanning left to right). -/
def pyReplace (s pat repl : String) : String :=
  ⟨replaceGo pat.data repl.data s.data.length s.data⟩

/-- One entry of `self.conversation_history`: the dict
`{"role": role, "content": content}` built by `_add_to_history`.  The
role string is `"user"` for patient turns and `"assistant"` for doctor
turns. -/
structure Message where
  role : String
  content : String
deriving DecidableEq, Repr

/-- The optional `emotion_context` dict consumed by
`_build_contextual_message`; each field models one `.get(...)` key
(absent keys are `none`).  The float confidence is modelled as a
rational. -/
structure EmotionContext where
  mismatch_detected : Bool
  confidence : Option ℚ
  mismatch_type : Option String
  text_sentiment : Option String
deriving DecidableEq, Repr

/-- The dict returned by `get_response`.  The success path populates
`should_end_consultation` and leaves `error` absent; the outer failure
path populates `error` and has no `should_end_consultation` key; absent
keys are `none`. -/
structure ResponseResult where
  text : String
  followup_needed : Bool
  should_end_consultation : Option Bool
  error : Option String
deriving DecidableEq, Repr

/-- Embedding of `GeminiService._add_to_history`: append one role/content dict. -/
def add_to_history (hist : List Message) (role content : String) : List Message :=
  hist ++ [{ role := role, content := content }]

/-- The age-guidance table of `GeminiService._get_age_guidance`. -/
def age_guidance_map : List (String × String) :=
  [("Child", "CRITICAL: Age-specific diagnosis required. Common causes at this age: viral infections, growing pains, minor injuries from play. Avoid adult medications. Use simple language and consider parental involvement."),
   ("Teenager", "CRITICAL: Age-specific diagnosis required. Most likely causes: poor posture from desk/phone use, sports injuries, stress/anxiety from school, hormonal changes, irregular sleep patterns, inadequate nutrition. Think about academic pressure and growth spurts."),
   ("Young Adult", "CRITICAL: Age-specific diagnosis required. Most likely causes: work-related stress, poor ergonomics (desk job), irregular sleep, inadequate exercise, poor diet, dehydration, lifestyle factors (alcohol, caffeine). Consider career stress and lifestyle habits first."),
   ("Middle-Aged", "CRITICAL: Age-specific diagnosis required. Most likely causes: chronic stress, sedentary lifestyle, weight-related issues, early signs of age-related conditions (hypertension, diabetes), work-life balance issues. Consider family history and preventive screening needs."),
   ("Senior", "CRITICAL: Age-specific diagnosis required. Most likely causes: arthritis, age-related degeneration, medication side effects, reduced mobility, chronic conditions. Ask about current medications and existing conditions. Consider fall risks and mobility limitations."),
   ("Elderly", "CRITICAL: Age-specific diagnosis required. Most likely causes: multiple chronic conditions, medication interactions, reduced healing capacity, balance issues, cognitive factors. Be extra thorough about medication review and consider caregiver involvement.")]

/-- Embedding of `GeminiService._get_age_guidance`: dictionary lookup with default
`""` (`age_guidance_map.get(age_category, "")`). -/
def get_age_guidance (age_category : String) : String :=
  (((age_guidance_map.find? (fun p => p.1 == age_category)).map Prod.snd).getD "")

/-- Embedding of `GeminiService._build_contextual_message`: the message actually sent
to the chat session.  `hist` is `self.conversation_history` at call
time.  Python truthiness of the optional string `age_category` (`None`
and `""` are falsy) and of the optional dict `emotion_context` is made
explicit. -/
def build_contextual_message (hist : List Message) (message emotion : String)
    (age : Option Int) (age_category : Option String)
    (emotion_context : Option EmotionContext) : String :=
  let parts : List String := ["Patient says: \"" ++ message ++ "\""]
  let parts :=
    match age_category with
    | some cat =>
        if cat ≠ "" then
          let age_guidance := get_age_guidance cat
          if age_guidance ≠ "" then
            parts ++ ["\n[PATIENT AGE: " ++ cat ++ "]", "[" ++ age_guidance ++ "]"]
          else parts
        else parts
    | none => parts
  let parts := parts ++ ["[Facial expression: " ++ emotion ++ "]"]
  let exchange_count := (hist.filter (fun msg => msg.role == "user")).length
  let parts :=
    if exchange_count ≥ 2 then
      parts ++ ["[This is exchange #" ++ toString (exchange_count + 1) ++
        ". You should provide assessment and advice now, not just more questions.]"]
    else parts
  let parts :=
    match emotion_context with
    | some ctx =>
        if ctx.mismatch_detected then
          let confidence := ctx.confidence.getD 0
          if confidence > 1 / 2 then
            let mt := ctx.mismatch_type.getD ""
            if mt = "positive_words_negative_face" then
              parts ++ ["[Note: Patient expressing positivity but appears " ++ emotion ++
                ". May want to check emotional wellbeing if appropriate.]"]
            else if mt = "negative_words_positive_face" then
              parts ++ ["[Note: Patient expressing concerns but appears " ++ emotion ++
                ". Likely manageable issue.]"]
            else parts
          else parts
        else parts
    | none => parts
  String.intercalate "\n" parts

/-- The sentinel end-of-consultation marker. -/
def END_TAG : String := "[END_CONSULTATION]"

/-- The four canned replies `get_response` picks from (via
`random.choice`) when the reply text is blocked or empty. -/
def fallback_responses : List String :=
  ["I understand. Can you tell me more about that?",
   "I see. What else have you been experiencing?",
   "Tell me more about how you've been feeling.",
   "I see. Could you tell me more about your symptoms?"]

/-- Embedding of `GeminiService.get_response`.  `hist` is `self.conversation_history`
on entry; the pair returned is (result dict, history after the call).
`send_outcome` is the oracle outcome of `chat_session.send_message`
followed by the `.text` read (see the file header); `rand` is the index
`random.choice` picks on the blocked-reply path. -/
def get_response (hist : List Message) (message emotion : String)
    (age : Option Int) (age_category : Option String)
    (emotion_context : Option EmotionContext)
    (send_outcome : Except String (Option String)) (rand : Fin 4) :
    ResponseResult × List Message :=
  let _contextual_message :=
    build_contextual_message hist message emotion age age_category emotion_context
  match send_outcome with
  | .error e =>
      let fallback :=
        if hist.length > 0 then "I see. Could you tell me more about your symptoms?"
        else "Hello! I'm here to help. What brings you in today?"
      ({ text := fallback, followup_needed := true,
         should_end_consultation := none, error := some e }, hist)
  | .ok text? =>
      let response_text :=
        match text? with
        | some t => pyStrip t
        | none => fallback_responses.get rand
      let should_end := pyIn END_TAG response_text
      let clean_response := pyStrip (pyReplace response_text END_TAG "")
      let hist := add_to_history hist "user" message
      let hist := add_to_history hist "assistant" clean_response
      let followup_needed := pyIn "?" clean_response || decide (hist.length < 6)
      ({ text := clean_response, followup_needed := followup_needed,
         should_end_consultation := some should_end, error := none }, hist)

/-- The transcript formatting loop at the top of
`GeminiService.generate_summary`: each message becomes a
`"Patient: ..."` or `"Doctor: ..."` line, joined with line breaks. -/
def format_conversation (conversation : List Message) : String :=
  String.intercalate "\n"
    (conversation.map (fun msg =>
      (if msg.role == "user" then "Patient" else "Doctor") ++ ": " ++ msg.content))

/-- The canned overview substituted when the overview generation result
is blocked (reading `.text` raises). -/
def overview_fallback_blocked : String :=
  "Patient presented with health concerns that were assessed during this consultation. Clinical evaluation and recommendations were provided based on reported symptoms."

/-- The fixed list substituted when the recommendations generation
result is blocked (reading `.text` raises). -/
def recommendations_fallback_blocked : List String :=
  ["Follow the treatment plan discussed during your consultation",
   "Monitor your symptoms closely and note any changes in severity or new symptoms",
   "Maintain adequate hydration, rest, and nutrition to support recovery",
   "Contact for follow-up if symptoms worsen or don't improve within the expected timeframe"]

/-- The canned overview returned by the outer `except` handler of
`generate_summary` (a remote call raised). -/
def summary_error_overview : String :=
  "Clinical summary unavailable. Please refer to the consultation transcript for complete details of the assessment and treatment plan provided."

/-- The fixed list returned by the outer `except` handler of
`generate_summary` (a remote call raised). -/
def summary_error_recommendations : List String :=
  ["Follow the treatment plan and recommendations discussed during your consultation",
   "Monitor your symptoms and track any changes or new developments",
   "Maintain proper rest, hydration, and nutrition to support recovery",
   "Seek immediate care if you experience severe or worsening symptoms"]

/-- The enumeration/bullet marks `generate_summary` strips from the
front of a recommendation line, in loop order. -/
def rec_marks : List String := ["1.", "2.", "3.", "4.", "5.", "-", "•", "●"]

/-- Per-line normalisation of a recommendation line before the length
test: `line.strip()` followed by removal of the markdown markers
`**`, `*`, `##`, `#` (in that order, each via `str.replace`). -/
def normalize_rec_line (line : String) : String :=
  pyReplace (pyReplace (pyReplace (pyReplace (pyStrip line) "**" "") "*" "") "##" "") "#" ""

/-- The inner `for prefix in [...]` loop of `generate_summary`: for each
mark in order, if the line currently starts with it, drop it and
re-strip. -/
def strip_rec_marks (line : String) : String :=
  rec_marks.foldl
    (fun l p => if p.data <+: l.data then pyStrip ⟨l.data.drop p.data.length⟩ else l) line

/-- Split a character list at every occurrence of `sep`, keeping empty
pieces, as Python `str.split(sep)` does for a single-character
separator. -/
def splitChar (sep : Char) : List Char → List (List Char)
  | [] => [[]]
  | c :: cs =>
      let rest := splitChar sep cs
      if c = sep then [] :: rest
      else
        match rest with
        | [] => [[c]]
        | piece :: pieces => (c :: piece) :: pieces

/-- Python `s.split('\n')` (where `sep` is a single character). -/
def pySplit (s : String) (sep : Char) : List String :=
  (splitChar sep s.data).map (fun piece => ⟨piece⟩)

/-- One iteration of the recommendation-parsing loop body of
`generate_summary`: normalise the line, test `if line and len(line) > 3`,
strip leading enumeration/bullet marks, and append if still
non-empty. -/
def parse_rec_step (recommendations : List String) (line0 : String) : List String :=
  let line := normalize_rec_line line0
  if line ≠ "" ∧ line.length > 3 then
    let line := strip_rec_marks line
    if line ≠ "" then recommendations ++ [line] else recommendations
  else recommendations

/-- The recommendation-parsing loop of `generate_summary`, applied to
`recommendations_response.text.strip()`: split on `'\n'` and run the
loop body over the lines, accumulating into `recommendations = []`. -/
def parse_recommendations (recommendations_text : String) : List String :=
  (pySplit recommendations_text '\n').foldl parse_rec_step []

/-- The record returned by `generate_summary`. -/
structure SummaryResult where
  overview : String
  recommendations : List String
deriving DecidableEq, Repr

/-- Embedding of `GeminiService.generate_summary`.  The two
`summary_model.generate_content` calls (overview first, then
recommendations — both issued before either `.text` is read) are
modelled by the two oracle outcomes, with the same encoding as in
`get_response`: `.error e` for a raised exception (handled by the outer
`except`, regardless of which call raised), `.ok none` for a blocked
`.text` read (handled per component), `.ok (some t)` for text `t`.  The
prompt texts sent to the model embed `format_conversation conversation`;
since the outcomes are universally quantified oracles, the prompt
contents do not influence the result.  `generate_summary` never touches
`self.conversation_history`. -/
def generate_summary (conversation : List Message)
    (overview_outcome recommendations_outcome : Except String (Option String)) :
    SummaryResult :=
  let _formatted_conversation := format_conversation conversation
  match overview_outcome, recommendations_outcome with
  | .error _, _ =>
      { overview := summary_error_overview,
        recommendations := summary_error_recommendations }
  | .ok _, .error _ =>
      { overview := summary_error_overview,
        recommendations := summary_error_recommendations }
  | .ok ov?, .ok rec? =>
      { overview :=
          match ov? with
          | some t => pyStrip t
          | none => overview_fallback_blocked,
        recommendations :=
          match rec? with
          | some t => parse_recommendations (pyStrip t)
          | none => recommendations_fallback_blocked }

/-- The inputs of one `get_response` call, bundling the caller-supplied
arguments with the oracle outcome of the remote interaction. -/
structure CallInput where
  message : String
  emotion : String
  age : Option Int
  age_category : Option String
  emotion_context : Option EmotionContext
  send_outcome : Except String (Option String)
  rand : Fin 4
deriving Repr

/-- One `get_response` call on an explicit history. -/
def respond_step (hist : List Message) (c : CallInput) : ResponseResult × List Message :=
  get_response hist c.message c.emotion c.age c.age_category c.emotion_context
    c.send_outcome c.rand

/-- A sequence of `get_response` calls, threading the history. -/
def run_respond_calls (hist : List Message) : List CallInput → List Message
  | [] => hist
  | c :: cs => run_respond_calls (respond_step hist c).2 cs

/-- A call is successful exactly when the remote interaction did not
raise, i.e. the returned dict carries no `error` field. -/
def call_ok (c : CallInput) : Bool :=
  match c.send_outcome with
  | .ok _ => true
  | .error _ => false

/-- The assistant text a successful call appends (and returns): the
tag-stripped reply on the text path, the tag-stripped canned fallback on
the blocked path. -/
def clean_reply (c : CallInput) : String :=
  match c.send_outcome with
  | .error _ => ""
  | .ok (some t) => pyStrip (pyReplace (pyStrip t) END_TAG "")
  | .ok none => pyStrip (pyReplace (fallback_responses.get c.rand) END_TAG "")

/-- The two history entries a successful call appends, in order. -/
def call_entries (c : CallInput) : List Message :=
  [{ role := "user", content := c.message },
   { role := "assistant", content := clean_reply c }]

/-- Python truthiness of an optional string (the result of `os.getenv`):
`None` and `""` are falsy, every other string is truthy. -/
def pyTruthyStr (s? : Option String) : Bool :=
  match s? with
  | none => false
  | some s => s ≠ ""

/-- Embedding of `GeminiService.__init__`: reads `os.getenv("GEMINI_API_KEY")` (the
argument models that single read) and raises `ValueError` exactly when
the value is falsy (absent or empty); otherwise construction completes
with the stored key.  `genai.configure` and the two
`genai.GenerativeModel` constructions only record configuration and do
not validate the key. -/
def gemini_service_init (env_GEMINI_API_KEY : Option String) : Except String String :=
  let api_key := env_GEMINI_API_KEY
  if pyTruthyStr api_key then .ok (api_key.getD "")
  else .error "GEMINI_API_KEY environment variable not set"

/-- Amended per-line recommendation parsing: normalise the line
(strip, remove markdown markers), keep it only when the normalised line
is longer than 3 characters, then remove leading enumeration/bullet
marks and drop the line if nothing remains.  Stated from the amended
claim wording, to be compared with `parse_recommendations`. -/
def rec_line_amended (line0 : String) : Option String :=
  let line := normalize_rec_line line0
  if line.length > 3 then
    let stripped := strip_rec_marks line
    if stripped = "" then none else some stripped
  else none

/-- Amended prompt assembly, optional age block: present exactly when a
non-empty category is supplied and the static table knows it. -/
def age_block (age_category : Option String) : List String :=
  match age_category with
  | none => []
  | some cat =>
      if cat = "" then []
      else if get_age_guidance cat = "" then []
      else ["\n[PATIENT AGE: " ++ cat ++ "]", "[" ++ get_age_guidance cat ++ "]"]

/-- Amended prompt assembly, optional exchange-count reminder: present
exactly when at least 2 prior user turns exist in history. -/
def exchange_reminder (hist : List Message) : List String :=
  let n := (hist.filter (fun msg => msg.role == "user")).length
  if n ≥ 2 then
    ["[This is exchange #" ++ toString (n + 1) ++
      ". You should provide assessment and advice now, not just more questions.]"]
  else []

/-- Amended prompt assembly, optional mismatch note: present exactly
when a mismatch is flagged with confidence strictly above 1/2 and the
mismatch type is one of the two recognised tags, with
tag-dependent wording. -/
def mismatch_note (emotion : String) (emotion_context : Option EmotionContext) :
    List String :=
  match emotion_context with
  | none => []
  | some ctx =>
      if ctx.mismatch_detected = true ∧ ctx.confidence.getD 0 > 1 / 2 then
        if ctx.mismatch_type.getD "" = "positive_words_negative_face" then
          ["[Note: Patient expressing positivity but appears " ++ emotion ++
            ". May want to check emotional wellbeing if appropriate.]"]
        else if ctx.mismatch_type.getD "" = "negative_words_positive_face" then
          ["[Note: Patient expressing concerns but appears " ++ emotion ++
            ". Likely manageable issue.]"]
        else []
      else []

/-- Amended prompt-assembly description (stated from the amended claim
wording, to be compared with `build_contextual_message`): the quoted
patient message, then the optional age block, the facial-emotion label,
the optional exchange-count reminder and the optional mismatch note,
joined by line breaks.  The prior conversation history is *not* part of
the assembled message. -/
def spec_contextual_message (hist : List Message) (message emotion : String)
    (age_category : Option String) (emotion_context : Option EmotionContext) : String :=
  String.intercalate "\n"
    (["Patient says: \"" ++ message ++ "\""] ++
     age_block age_category ++
     ["[Facial expression: " ++ emotion ++ "]"] ++
     exchange_reminder hist ++
     mismatch_note emotion emotion_context)

/-! ### Helper lemmas -/

theorem respond_step_snd_of_ok (hist : List Message) (c : CallInput)
    (h : call_ok c = true) :
    (respond_step hist c).2 = hist ++ call_entries c := by
  rcases c with ⟨m, emo, a, cat, ctx, oc, r⟩
  cases oc with
  | error e => simp [call_ok] at h
  | ok t? =>
      cases t? <;>
        simp [respond_step, get_response, call_entries, clean_reply, add_to_history]

theorem respond_step_snd_of_error (hist : List Message) (c : CallInput) (e : String)
    (h : c.send_outcome = .error e) :
    (respond_step hist c).2 = hist := by
  rcases c with ⟨m, emo, a, cat, ctx, oc, r⟩
  simp at h
  subst h
  simp [respond_step, get_response]

theorem respond_step_append_only (hist : List Message) (c : CallInput) :
    ∃ tail, (respond_step hist c).2 = hist ++ tail := by
  rcases hoc : c.send_outcome with e | t?
  · exact ⟨[], by rw [respond_step_snd_of_error hist c e hoc, List.append_nil]⟩
  · refine ⟨call_entries c, respond_step_snd_of_ok hist c ?_⟩
    simp [call_ok, hoc]

theorem run_respond_calls_of_ok (calls : List CallInput) :
    ∀ hist : List Message, (∀ c ∈ calls, call_ok c = true) →
      run_respond_calls hist calls = hist ++ (calls.map call_entries).flatten := by
  induction calls with
  | nil => intro hist _; simp [run_respond_calls]
  | cons c cs ih =>
      intro hist h
      rw [run_respond_calls, respond_step_snd_of_ok hist c (h c (by simp)),
        ih _ (fun c' hc' => h c' (by simp [hc']))]
      simp

theorem join_map_call_entries_length (calls : List CallInput) :
    ((calls.map call_entries).flatten).length = 2 * calls.length := by
  induction calls with
  | nil => rfl
  | cons c cs ih =>
      simp only [List.map_cons, List.flatten_cons, List.length_append, ih]
      simp [call_entries]
      omega

theorem infix_dropWhile_of_head {p : Char → Bool} {c : Char} {M l : List Char}
    (hc : p c = false) (h : (c :: M) <:+: l) : (c :: M) <:+: l.dropWhile p := by
  induction l with
  | nil => simp at h
  | cons x xs ih =>
      rw [ List.dropWhile_cons]
      by_cases hp : p x
      · simp only [hp, if_true]
        rcases List.infix_cons_iff.mp h with hpre | hinf
        · rw [ List.cons_prefix_cons] at hpre
          rw [← hpre.1, hc] at hp
          exact Bool.noConfusion hp
        · exact ih hinf
      · simp only [hp, if_false]
        exact h

theorem pyStripList_infix_self (l : List Char) : pyStripList l <:+: l := by
  unfold pyStripList
  exact ( List.IsPrefix.isInfix ( List.rdropWhile_prefix _ _)).trans
    ( List.IsSuffix.isInfix (List.dropWhile_suffix _))

theorem infix_pyStripList_iff {c d : Char} {M₁ M₂ l : List Char}
    (hc : pyIsSpace c = false) (hd : pyIsSpace d = false)
    (hrev : (c :: M₁).reverse = d :: M₂) :
    ((c :: M₁) <:+: pyStripList l ↔ (c :: M₁) <:+: l) := by
  constructor
  · intro h
    exact h.trans (pyStripList_infix_self l)
  · intro h
    have h1 : (c :: M₁) <:+: l.dropWhile pyIsSpace := infix_dropWhile_of_head hc h
    have h2 : (c :: M₁).reverse <:+: (l.dropWhile pyIsSpace).reverse :=
      List.reverse_infix.mpr h1
    rw [hrev] at h2
    have h3 : (d :: M₂) <:+: ((l.dropWhile pyIsSpace).reverse).dropWhile pyIsSpace :=
      infix_dropWhile_of_head hd h2
    have h4 : (d :: M₂).reverse <:+:
        (((l.dropWhile pyIsSpace).reverse).dropWhile pyIsSpace).reverse :=
      List.reverse_infix.mpr h3
    rw [← hrev, List.reverse_reverse] at h4
    exact h4

theorem pyIn_END_TAG_pyStrip (s : String) :
    pyIn END_TAG (pyStrip s) = pyIn END_TAG s := by
  have h1 : END_TAG.data = '[' :: "END_CONSULTATION]".data := by decide
  have hc : pyIsSpace '[' = false := by decide
  have hd : pyIsSpace ']' = false := by decide
  have hrev : ('[' :: "END_CONSULTATION]".data).reverse =
      ']' :: "NOITATLUSNOC_DNE[".data := by decide
  unfold pyIn pyStrip
  rw [h1]
  exact decide_eq_decide.mpr (infix_pyStripList_iff hc hd hrev)

theorem parse_rec_step_eq (acc : List String) (l : String) :
    parse_rec_step acc l = acc ++ (rec_line_amended l).toList := by
  by_cases h3 : (normalize_rec_line l).length > 3
  · have hne : normalize_rec_line l ≠ "" := by
      intro h0
      rw [h0] at h3
      simp at h3
    by_cases hs : strip_rec_marks (normalize_rec_line l) = "" <;>
      simp [parse_rec_step, rec_line_amended, h3, hne, hs]
  · simp [parse_rec_step, rec_line_amended, h3]

theorem parse_recommendations_eq (txt : String) :
    parse_recommendations txt = (pySplit txt '\n').filterMap rec_line_amended := by
  unfold parse_recommendations
  generalize pySplit txt '\n' = lines
  suffices h : ∀ acc, lines.foldl parse_rec_step acc =
      acc ++ lines.filterMap rec_line_amended by
    simpa using h []
  induction lines with
  | nil => intro acc; simp
  | cons l ls ih =>
      intro acc
      rw [List.foldl_cons, parse_rec_step_eq, ih, List.filterMap_cons]
      cases hfa : rec_line_amended l <;> simp

theorem mem_parse_recommendations_ne_empty (txt r : String)
    (hr : r ∈ parse_recommendations txt) : r ≠ "" := by
  rw [parse_recommendations_eq, List.mem_filterMap] at hr
  obtain ⟨a, -, hfa⟩ := hr
  by_cases h3 : (normalize_rec_line a).length > 3
  · by_cases hs : strip_rec_marks (normalize_rec_line a) = ""
    · simp [rec_line_amended, h3, hs] at hfa
    · simp only [rec_line_amended] at hfa
      rw [if_pos h3, if_neg hs] at hfa
      intro hr0
      rw [hr0] at hfa
      exact hs (Option.some.inj hfa)
  · simp [rec_line_amended, h3] at hfa

/-! ### Claim theorems -/

/-- C1 counterexample: when the backend reply is exactly the end marker,
`respond` returns an *empty* `text` field — refuting the claim that the
returned text is non-empty for every backend behaviour. -/
theorem respond_text_empty_on_marker_only_reply :
    (get_response [] "hi" "neutral" none none none
      (.ok (some "[END_CONSULTATION]")) 0).1.text = "" := by decide

/-- C1 (amended): `respond` is total (the embedding returns a result for
every backend behaviour, never propagating an error), and the returned
text is non-empty whenever the remote call raised — and whenever the
reply was blocked/empty; on the text path the returned text is the
marker-stripped trimmed raw reply, which can be empty when the raw reply
consists only of the marker and whitespace. -/
theorem respond_total_text_characterization
    (hist : List Message) (message emotion : String) (age : Option Int)
    (age_category : Option String) (ctx : Option EmotionContext) (rand : Fin 4) :
    (∀ e : String,
      (get_response hist message emotion age age_category ctx (.error e) rand).1.text ≠ "") ∧
    ((get_response hist message emotion age age_category ctx (.ok none) rand).1.text ≠ "") ∧
    (∀ raw : String,
      (get_response hist message emotion age age_category ctx (.ok (some raw)) rand).1.text =
        pyStrip (pyReplace (pyStrip raw) END_TAG "")) := by
  refine ⟨fun e => ?_, ?_, fun raw => rfl⟩
  · simp only [get_response]
    split <;> decide
  · simp only [get_response]
    revert rand
    decide

/-- C1 witness: the amended theorem applied at a concrete reply. -/
theorem respond_total_text_characterization_witness :
    (get_response [] "hi" "calm" none none none (.ok (some " Hello there. ")) 0).1.text =
      pyStrip (pyReplace (pyStrip " Hello there. ") END_TAG "") :=
  (respond_total_text_characterization [] "hi" "calm" none none none 0).2.2 " Hello there. "

/-- C3 counterexample: a call on which the remote call raises (and a
fallback string is substituted) appends *nothing* to the history —
refuting the claim that every call appends the two messages. -/
theorem respond_error_appends_nothing :
    ((get_response [] "I have a headache" "sad" none none none
        (.error "network down") 0).2 = []) ∧
    ((get_response [] "I have a headache" "sad" none none none
        (.error "network down") 0).1.text =
      "Hello! I'm here to help. What brings you in today?") := by
  exact ⟨rfl, rfl⟩

/-- C3 (amended): a `respond` call appends the user message and the
(possibly fallback) assistant message exactly when the remote call does
not raise (including blocked-reply calls, whose canned fallback is
appended); a call on the outer failure path leaves the history
unchanged. -/
theorem respond_appends_exactly_on_success
    (hist : List Message) (message emotion : String) (age : Option Int)
    (age_category : Option String) (ctx : Option EmotionContext)
    (outcome : Except String (Option String)) (rand : Fin 4) :
    (∀ t? : Option String, outcome = .ok t? →
      (get_response hist message emotion age age_category ctx outcome rand).2 =
        hist ++ [{ role := "user", content := message },
          { role := "assistant",
            content :=
              (get_response hist message emotion age age_category ctx outcome rand).1.text }]) ∧
    (∀ e : String, outcome = .error e →
      (get_response hist message emotion age age_category ctx outcome rand).2 = hist) := by
  constructor
  · rintro t? rfl
    cases t? <;> simp [get_response, add_to_history]
  · rintro e rfl
    simp [get_response]

/-- C3 witness: the amended theorem applied at a concrete successful
call on an empty history. -/
theorem respond_appends_exactly_on_success_witness :
    (get_response [] "hi" "calm" none none none (.ok (some "Hi.")) 0).2 =
      [] ++ [{ role := "user", content := "hi" },
        { role := "assistant",
          content := (get_response [] "hi" "calm" none none none (.ok (some "Hi.")) 0).1.text }] :=
  (respond_appends_exactly_on_success [] "hi" "calm" none none none
    (.ok (some "Hi.")) 0).1 (some "Hi.") rfl

/-- C4: for every successful call (no error field, i.e. the oracle
returned `.ok`), the follow-up flag is true iff the returned text
contains a question mark or the post-append history has fewer than 6
messages; in particular it is true whenever the post-append history is
shorter than 6 messages. -/
theorem followup_iff_question_or_short_history
    (hist : List Message) (message emotion : String) (age : Option Int)
    (age_category : Option String) (ctx : Option EmotionContext)
    (t? : Option String) (rand : Fin 4) :
    ((get_response hist message emotion age age_category ctx (.ok t?) rand).1.followup_needed
        = true ↔
      (pyIn "?"
          (get_response hist message emotion age age_category ctx (.ok t?) rand).1.text = true ∨
        ((get_response hist message emotion age age_category ctx (.ok t?) rand).2).length < 6)) ∧
    (((get_response hist message emotion age age_category ctx (.ok t?) rand).2).length < 6 →
      (get_response hist message emotion age age_category ctx (.ok t?) rand).1.followup_needed
        = true) := by
  have hiff :
      (get_response hist message emotion age age_category ctx (.ok t?) rand).1.followup_needed
          = true ↔
        (pyIn "?"
            (get_response hist message emotion age age_category ctx (.ok t?) rand).1.text = true ∨
          ((get_response hist message emotion age age_category ctx (.ok t?) rand).2).length < 6) := by
    cases t? <;> simp [get_response, add_to_history, Bool.or_eq_true, decide_eq_true_eq]
  exact ⟨hiff, fun h => hiff.mpr (Or.inr h)⟩

/-- C4 witness: a concrete successful call whose text has no question
mark still gets `followup_needed = true` because the history is short. -/
theorem followup_iff_question_or_short_history_witness :
    (get_response [] "hi" "calm" none none none
      (.ok (some "No problem at all.")) 0).1.followup_needed = true :=
  (followup_iff_question_or_short_history [] "hi" "calm" none none none
    (some "No problem at all.") 0).2 (by decide)

/-- C5 counterexample: a raw reply in which removing the single marker
occurrence concatenates fragments into a *new* occurrence; the returned
text still contains the marker, refuting "the returned text never
contains the marker substring". -/
theorem clean_text_can_retain_end_marker :
    ((get_response [] "hi" "calm" none none none
        (.ok (some "[END_CONSULT[END_CONSULTATION]ATION]")) 0).1.should_end_consultation =
      some true) ∧
    (pyIn END_TAG
        ((get_response [] "hi" "calm" none none none
          (.ok (some "[END_CONSULT[END_CONSULTATION]ATION]")) 0).1.text) = true) := by
  constructor <;> decide

/-- C5 (amended): `shouldEndConsultation` is true iff the marker occurs
in the raw reply, and the returned text is the raw reply with the
original marker occurrences removed left-to-right (and whitespace
stripped); removal can, in edge cases, juxtapose fragments into a new
marker occurrence that remains in the text. -/
theorem end_marker_detection_and_strip
    (hist : List Message) (message emotion : String) (age : Option Int)
    (age_category : Option String) (ctx : Option EmotionContext)
    (raw : String) (rand : Fin 4) :
    ((get_response hist message emotion age age_category ctx
        (.ok (some raw)) rand).1.should_end_consultation = some (pyIn END_TAG raw)) ∧
    ((get_response hist message emotion age age_category ctx
        (.ok (some raw)) rand).1.text = pyStrip (pyReplace (pyStrip raw) END_TAG "")) := by
  constructor
  · show some (pyIn END_TAG (pyStrip raw)) = some (pyIn END_TAG raw)
    rw [pyIn_END_TAG_pyStrip]
  · rfl

/-- C9: construction fails (raises `ValueError`) iff the single
credential read from the environment is absent or empty; when it is
present and non-empty, construction succeeds with that key and no other
credential-related failure mode. -/
theorem init_fails_iff_credential_missing_or_empty (env : Option String) :
    ((∃ msg, gemini_service_init env = .error msg) ↔ (env = none ∨ env = some "")) ∧
    (∀ k : String, env = some k → k ≠ "" → gemini_service_init env = .ok k) := by
  constructor
  · constructor
    · rintro ⟨msg, hmsg⟩
      cases env with
      | none => exact Or.inl rfl
      | some k =>
          by_cases hk : k = ""
          · exact Or.inr (by rw [hk])
          · simp [gemini_service_init, pyTruthyStr, hk] at hmsg
    · rintro (rfl | rfl) <;> exact ⟨_, rfl⟩
  · rintro k rfl hk
    simp [gemini_service_init, pyTruthyStr, hk]

/-- C9 witness: the theorem applied at a concrete non-empty key. -/
theorem init_fails_iff_credential_missing_or_empty_witness :
    gemini_service_init (some "test-key") = .ok "test-key" :=
  (init_fails_iff_credential_missing_or_empty (some "test-key")).2 "test-key" rfl (by decide)

/-- C10: on the outer failure path (remote call raised), the history is
unchanged, the follow-up flag is unconditionally true, the result has no
`should_end_consultation` field, the error field carries the exception,
and the fallback text depends only on whether the history was empty at
call time. -/
theorem respond_error_path_result
    (hist : List Message) (message emotion : String) (age : Option Int)
    (age_category : Option String) (ctx : Option EmotionContext)
    (e : String) (rand : Fin 4) :
    ((get_response hist message emotion age age_category ctx (.error e) rand).2 = hist) ∧
    ((get_response hist message emotion age age_category ctx
        (.error e) rand).1.followup_needed = true) ∧
    ((get_response hist message emotion age age_category ctx
        (.error e) rand).1.should_end_consultation = none) ∧
    ((get_response hist message emotion age age_category ctx
        (.error e) rand).1.error = some e) ∧
    ((get_response hist message emotion age age_category ctx (.error e) rand).1.text =
      (if hist = [] then "Hello! I'm here to help. What brings you in today?"
       else "I see. Could you tell me more about your symptoms?")) := by
  refine ⟨rfl, rfl, rfl, rfl, ?_⟩
  cases hist <;> simp [get_response]

/-- C2: starting from an empty history, a sequence of successful
`respond` calls (no error field) leaves a history that is exactly the
concatenation, in call order, of one `"user"` (patient) entry followed
by one `"assistant"` entry per call — in particular of length 2N — and
every single call only ever appends: the prior history is an initial
segment of the new history, so no existing entry is mutated or removed
(`generate_summary` takes the transcript as a pure argument and never
touches the history). -/
theorem history_after_successful_calls
    (calls : List CallInput) (h : ∀ c ∈ calls, call_ok c = true) :
    run_respond_calls [] calls = (calls.map call_entries).flatten ∧
    (run_respond_calls [] calls).length = 2 * calls.length ∧
    (∀ (hist : List Message) (c : CallInput),
      ∃ tail, (respond_step hist c).2 = hist ++ tail) := by
  have h1 := run_respond_calls_of_ok calls [] h
  rw [List.nil_append] at h1
  exact ⟨h1, by rw [h1]; exact join_map_call_entries_length calls,
    respond_step_append_only⟩

/-- C2 witness: two concrete successful calls (one text reply, one
blocked reply) produce the expected 4-entry history. -/
theorem history_after_successful_calls_witness :
    run_respond_calls []
      [{ message := "I have a headache", emotion := "sad", age := none,
         age_category := none, emotion_context := none,
         send_outcome := .ok (some "Where does it hurt?"), rand := 0 },
       { message := "In the front", emotion := "sad", age := none,
         age_category := none, emotion_context := none,
         send_outcome := .ok none, rand := 2 }] =
    ([{ message := "I have a headache", emotion := "sad", age := none,
        age_category := none, emotion_context := none,
        send_outcome := .ok (some "Where does it hurt?"), rand := 0 },
      { message := "In the front", emotion := "sad", age := none,
        age_category := none, emotion_context := none,
        send_outcome := .ok none, rand := 2 }].map call_entries).flatten :=
  (history_after_successful_calls _ (by decide)).1

/-- C6 counterexample: a blocked recommendations generation (a parse
failure) yields the *generated* overview, not a canned one, and a
4-item fallback list different from the one the outer transport-failure
handler returns — refuting "the same 4 strings for every failure". -/
theorem summary_fallbacks_differ_between_failure_kinds :
    ((generate_summary [] (.ok (some "Overview X")) (.ok none)).overview = "Overview X") ∧
    ((generate_summary [] (.ok (some "Overview X")) (.ok none)).recommendations =
      recommendations_fallback_blocked) ∧
    ((generate_summary [] (.error "boom") (.ok (some "ignored"))).recommendations =
      summary_error_recommendations) ∧
    (recommendations_fallback_blocked ≠ summary_error_recommendations) := by
  refine ⟨by decide, rfl, rfl, by decide⟩

/-- C6 (amended): `summarize` never propagates a failure; a raised
remote call (on either generation) yields one fixed canned overview and
one fixed 4-item list, while a blocked generation result replaces only
the affected component with its own fixed fallback (a canned overview
sentence, respectively a different fixed 4-item list). -/
theorem summary_failure_fallback_characterization
    (conversation : List Message) (ov rec : Except String (Option String)) :
    (∀ e, ov = .error e →
      generate_summary conversation ov rec =
        { overview := summary_error_overview,
          recommendations := summary_error_recommendations }) ∧
    (∀ e, rec = .error e →
      generate_summary conversation ov rec =
        { overview := summary_error_overview,
          recommendations := summary_error_recommendations }) ∧
    (∀ t, ov = .ok t → rec = .ok none →
      (generate_summary conversation ov rec).recommendations =
        recommendations_fallback_blocked) ∧
    (∀ t, ov = .ok none → rec = .ok t →
      (generate_summary conversation ov rec).overview = overview_fallback_blocked) ∧
    summary_error_recommendations.length = 4 ∧
    recommendations_fallback_blocked.length = 4 := by
  refine ⟨?_, ?_, ?_, ?_, rfl, rfl⟩
  · rintro e rfl
    rfl
  · rintro e rfl
    cases ov <;> rfl
  · rintro t rfl rfl
    rfl
  · rintro t rfl rfl
    rfl

/-- C6 witness: the amended theorem applied at a concrete transport
failure. -/
theorem summary_failure_fallback_characterization_witness :
    generate_summary [] (.error "timeout") (.ok none) =
      { overview := summary_error_overview,
        recommendations := summary_error_recommendations } :=
  (summary_failure_fallback_characterization [] (.error "timeout") (.ok none)).1 "timeout" rfl

/-- C7 counterexample: the length filter runs *before* the
enumeration-mark removal, so the raw line `"1. ab"` (5 characters)
passes the filter and the 2-character string `"ab"` lands in the
returned list — refuting "every string in the returned recommendation
list has length at least 4". -/
theorem recommendation_shorter_than_four_chars :
    ((generate_summary [] (.ok (some "Clinical summary."))
        (.ok (some "1. ab"))).recommendations = ["ab"]) ∧
    (("ab" : String).length < 4) := by
  constructor <;> decide

/-- C7 (amended): the recommendation list equals the result of splitting
the raw string on line breaks, normalising each line (strip plus
markdown-marker removal), discarding lines of normalised length at most
3 *before* removing leading enumeration/bullet marks, and dropping lines
that become empty — so every returned string is non-empty, though it may
be shorter than 4 characters. -/
theorem recommendation_parse_characterization
    (conversation : List Message) (ov : Option String) (raw : String) :
    ((generate_summary conversation (.ok ov) (.ok (some raw))).recommendations =
      (pySplit (pyStrip raw) '\n').filterMap rec_line_amended) ∧
    (∀ r ∈ (generate_summary conversation (.ok ov) (.ok (some raw))).recommendations,
      r ≠ "") := by
  have hrec : (generate_summary conversation (.ok ov) (.ok (some raw))).recommendations =
      parse_recommendations (pyStrip raw) := rfl
  constructor
  · rw [hrec, parse_recommendations_eq]
  · intro r hr
    rw [hrec] at hr
    exact mem_parse_recommendations_ne_empty _ r hr

/-- C7 witness: the amended theorem applied at a concrete raw
recommendations string. -/
theorem recommendation_parse_characterization_witness :
    (generate_summary [] (.ok (some "s")) (.ok (some "- Rest well\nok"))).recommendations =
      (pySplit (pyStrip "- Rest well\nok") '\n').filterMap rec_line_amended :=
  (recommendation_parse_characterization [] (some "s") "- Rest well\nok").1

/-- C8 counterexample: with a non-empty history, the message assembled
for the backend does not contain the prior history messages at all (the
chat session holds the history separately; the last-6 window lives only
in the dead helper `_build_prompt`) — refuting "concatenates, in order:
the last 6 history messages ...". -/
theorem contextual_message_omits_history :
    (pyIn "I have a headache"
      (build_contextual_message
        [{ role := "user", content := "I have a headache" },
         { role := "assistant", content := "Where is the pain?" }]
        "It is in the front" "neutral" none none none) = false) ∧
    (build_contextual_message
        [{ role := "user", content := "I have a headache" },
         { role := "assistant", content := "Where is the pain?" }]
        "It is in the front" "neutral" none none none =
      "Patient says: \"It is in the front\"\n[Facial expression: neutral]") := by
  constructor <;> decide

/-- C8 (amended): the message assembled for the backend concatenates, in
order: the quoted patient message, an age block (guidance looked up from
the static table, omitted when the category is unknown, absent or
empty), the facial-emotion label, the exchange-count reminder exactly
when 2 or more prior user turns exist, and a mismatch note only when a
mismatch is flagged with confidence strictly above 0.5 and the mismatch
type is one of the two recognised tags, with tag-dependent wording; the
prior history is not part of this message. -/
theorem contextual_message_characterization
    (hist : List Message) (message emotion : String) (age : Option Int)
    (age_category : Option String) (ctx : Option EmotionContext) :
    build_contextual_message hist message emotion age age_category ctx =
      spec_contextual_message hist message emotion age_category ctx := by
  rcases age_category with _ | cat
  · rcases ctx with _ | c
    · by_cases hn : ((hist.filter (fun msg => msg.role == "user")).length >= 2) <;>
        simp [build_contextual_message, spec_contextual_message, age_block,
          exchange_reminder, mismatch_note, hn]
    · by_cases hn : ((hist.filter (fun msg => msg.role == "user")).length >= 2) <;>
      by_cases hd : c.mismatch_detected <;>
      by_cases hconf : (2⁻¹ : ℚ) < c.confidence.getD 0 <;>
      by_cases h1 : c.mismatch_type.getD "" = "positive_words_negative_face" <;>
      by_cases h2 : c.mismatch_type.getD "" = "negative_words_positive_face" <;>
        simp [build_contextual_message, spec_contextual_message, age_block,
          exchange_reminder, mismatch_note, hn, hd, hconf, h1, h2]
  · rcases ctx with _ | c
    · by_cases hcat : cat = "" <;>
      by_cases hg : get_age_guidance cat = "" <;>
      by_cases hn : ((hist.filter (fun msg => msg.role == "user")).length >= 2) <;>
        simp [build_contextual_message, spec_contextual_message, age_block,
          exchange_reminder, mismatch_note, hcat, hg, hn]
    · by_cases hcat : cat = "" <;>
      by_cases hg : get_age_guidance cat = "" <;>
      by_cases hn : ((hist.filter (fun msg => msg.role == "user")).length >= 2) <;>
      by_cases hd : c.mismatch_detected <;>
      by_cases hconf : (2⁻¹ : ℚ) < c.confidence.getD 0 <;>
      by_cases h1 : c.mismatch_type.getD "" = "positive_words_negative_face" <;>
      by_cases h2 : c.mismatch_type.getD "" = "negative_words_positive_face" <;>
        simp [build_contextual_message, spec_contextual_message, age_block,
          exchange_reminder, mismatch_note, hcat, hg, hn, hd, hconf, h1, h2]

example :
    (get_response [] "I have a headache" "neutral" none (some "Teenager") none
      (.ok (some "Drink water. [END_CONSULTATION]")) 0).1 =
    { text := "Drink water.", followup_needed := true,
      should_end_consultation := some true, error := none } := by decide

example :
    generate_summary [] (.ok (some "All good.")) (.ok (some "1. Take 400mg ibuprofen every 6 hours\n- Rest well\nok")) =
    { overview := "All good.",
      recommendations := ["Take 400mg ibuprofen every 6 hours", "Rest well"] } := by decide
